import Mathlib

/-!
Shallow embedding of the invoice-data-extractor pipeline (src/app.py).

The repository itself is the Streamlit glue in app.py: it uploads a PDF to a
temporary file, builds an in-memory vector index over the document, runs one
retrieval completion with a fixed question, then one chat completion with a
schema-constrained prompt, parses the chat output into a six-key mapping, and
removes the temporary file.  The library components it wires together
(PyPDFLoader, VectorstoreIndexCreator/DocArrayInMemorySearch,
StructuredOutputParser) are not part of the repository source; those parts are
modelled from the specification, as marked on each definition.  External
services (embedding, text completion, chat completion) are modelled as stub
functions supplied by the caller, and every external round-trip is recorded in
an explicit call trace.
-/

set_option maxRecDepth 8192

namespace InvoiceExtractor

/-- A JSON-like value in the extraction result: a string, a number, or the
explicit null marker (spec section 3, Extraction Result). -/
inductive Value where
  | str (s : String)
  | num (n : Int)
  | null
deriving DecidableEq

/-- Modelled from the spec: a field of the chat completion's structured answer.
The prompt instructs the model, for each field, to answer with the value or
with the token null if unclear; the model either determines a value or does
not (spec sections 4.4 and 8, null fallback). -/
inductive RawField where
  | determined (v : Value)
  | undetermined
deriving DecidableEq

/-- Modelled from the spec: the instructed rendering of a field — a field the
model cannot determine is emitted as the explicit null marker, never as an
empty string and never omitted (spec section 3 invariant). -/
def renderField : RawField → Value
  | .determined v => v
  | .undetermined => Value.null

/-- A (name, description) response schema, as built at app.py lines 72-77. -/
structure ResponseSchema where
  name : String
  description : String
deriving DecidableEq

def numberSchema : ResponseSchema :=
  ⟨"number", "What is the invoice number? Answer null if unclear."⟩

def dateSchema : ResponseSchema :=
  ⟨"date", "What is the issued date of the invoice? Format it as mm-dd-yyyy, answer null if unclear."⟩

def companySchema : ResponseSchema :=
  ⟨"company", "What is the name of the company who issued the invoice? Answer null if unclear."⟩

def addressSchema : ResponseSchema :=
  ⟨"address", "What is the full address of the company who issued the invoice? Format it as address, city (state), country, answer null if unclear."⟩

def serviceSchema : ResponseSchema :=
  ⟨"service", "What is the service purchased with this invoice? Answer null if unclear."⟩

def totalSchema : ResponseSchema :=
  ⟨"total", "What is the grand total amount of the invoice? Format is as a number, answer null if unclear."⟩

/-- The fixed list of six response schemas (app.py line 79). -/
def response_schemas : List ResponseSchema :=
  [numberSchema, dateSchema, companySchema, addressSchema, serviceSchema, totalSchema]

/-- The six required output keys, in schema order. -/
def fieldNames : List String := response_schemas.map ResponseSchema.name

/-- The error taxonomy of the pipeline (spec section 7). -/
inductive PipelineError where
  | loadError
  | embeddingError
  | generationError
  | parseError
deriving DecidableEq

/-- One chunk of the document held by the in-memory index: its text, its
original position, and its embedding vector (spec section 3, Chunk). -/
structure Chunk where
  text : String
  idx : Nat
  vec : List Int
deriving DecidableEq

/-- Modelled from the spec: the distance used by the in-memory vector store
(DocArrayInMemorySearch, library code not under src/) — squared Euclidean
distance, an equivalent metric to cosine distance for ranking purposes
(spec section 4.2, cosine or equivalent distance metric). -/
def dist (q v : List Int) : Int :=
  (List.zipWith (fun a b => (a - b) * (a - b)) q v).sum

/-- The ranking order of the index: smaller distance to the query first, ties
broken by original chunk order (spec section 4.2). -/
def chunkLE (q : List Int) (a b : Chunk) : Prop :=
  dist q a.vec < dist q b.vec ∨ (dist q a.vec = dist q b.vec ∧ a.idx ≤ b.idx)

instance (q : List Int) : DecidableRel (chunkLE q) := fun a b => by
  unfold chunkLE; exact inferInstance

instance (q : List Int) : IsTotal Chunk (chunkLE q) :=
  ⟨fun a b => by unfold chunkLE; omega⟩

instance (q : List Int) : IsTrans Chunk (chunkLE q) :=
  ⟨fun a b c hab hbc => by
    unfold chunkLE at hab hbc ⊢; omega⟩

/-- Modelled from the spec: nearest(query_vector, k) of the in-memory index
(DocArrayInMemorySearch, library code not under src/): the chunks ranked by
distance to the query, ties broken by original chunk order, truncated to at
most k results (spec section 4.2). -/
def nearest (chunks : List Chunk) (q : List Int) (k : Nat) : List Chunk :=
  (List.insertionSort (chunkLE q) chunks).take k

/-- Modelled from the spec: the chunk indexer splits the page texts into
chunks with an implementation-chosen policy (spec section 4.2); here one
chunk per page, original order recorded as the index. -/
def chunkPages (pages : List String) : List (String × Nat) :=
  pages.enum.map (fun p => (p.2, p.1))

/-- One external round-trip, as recorded in the call trace
(spec section 5 names the four network-facing calls). -/
inductive CallEvent where
  | embedChunk (text : String)
  | embedQuery (text : String)
  | textCompletion (prompt : String) (temperature : Nat)
  | chatCompletion (prompt : String) (temperature : Nat)
deriving DecidableEq

/-- The stub external collaborators of one invocation: the PDF loader and the
three key-authenticated services (spec section 6).  Each takes the credential
string as its first argument, mirroring the clients built at app.py lines
49, 51 and 110; each may fail (service unreachable, credential rejected). -/
structure Services where
  loadPDF : List Nat → Except Unit (List String)
  embed : String → String → Except Unit (List Int)
  completeText : String → String → Nat → Except Unit String
  completeChat : String → String → Nat → Except Unit (Option (List (String × RawField)))

/-- The fixed retrieval question of app.py lines 58-67, a constant of the
program (the spelling of the source is preserved). -/
def query : String :=
  "This document is an invoice, please describe it and be sure to include all the relevant infomation.\nBe sure to include:\n- the service purchased\n- the company who issued the invoice\n- the full address of the company who issued the invoice\n- the Grand Total amount\n- the invoice number\n- the date issued"

/-- Modelled from the spec: format instructions derived from the field schema
(StructuredOutputParser.get_format_instructions, library code not under
src/): a textual specification of which JSON keys to emit (spec section 4.4). -/
def formatInstructions : String :=
  "Return a JSON object with exactly these keys: " ++ String.intercalate ", " fieldNames

/-- Modelled from the spec: the retrieval-stage prompt concatenates the
retrieved chunk texts and the question into a single context
(spec section 4.3); the question component is always the fixed constant. -/
def retrievalPrompt (ctx : String) : String :=
  "Use the following pieces of context to answer the question.\n" ++ ctx ++ "\nQuestion: " ++ query

/-- The extraction prompt template of app.py lines 85-106: field descriptions,
the key list, the retrieval answer as source text, and the format
instructions. -/
def template (text fmt : String) : String :=
  "This document is an invoice, extract the following information:\n\n"
    ++ String.intercalate "\n" (response_schemas.map (fun s => s.name ++ ": " ++ s.description))
    ++ "\n\nFormat the output as JSON with the following keys:\n"
    ++ String.intercalate "\n" fieldNames
    ++ "\n\ntext: " ++ text ++ "\n\n" ++ fmt

/-- The chat prompt built at app.py line 112 from the retrieval answer and the
format instructions. -/
def chatPrompt (answerText : String) : String :=
  template answerText formatInstructions

/-- The concatenated context window of the retrieved chunks (spec section 4.3). -/
def contextOf (cs : List Chunk) : String :=
  String.intercalate "\n" (cs.map Chunk.text)

/-- Modelled from the spec: StructuredOutputParser.parse (library code not
under src/): parses the structured chat output, failing with ParseError when
the text is not parseable (`none`) or does not carry exactly the expected key
set; on success the six fields are returned with the instructed null
rendering (spec sections 4.4 and 7). -/
def parseStructured (raw : Option (List (String × RawField))) :
    Except PipelineError (List (String × Value)) :=
  match raw with
  | none => .error .parseError
  | some kvs =>
    if kvs.map Prod.fst = fieldNames then
      .ok (kvs.map (fun p => (p.1, renderField p.2)))
    else .error .parseError

/-- The observable outcome of one invocation: the result surfaced to the
boundary, the free-text retrieval answer (once computed), the trace of
external calls in issue order, and whether the temporary file still exists. -/
structure Run where
  result : Except PipelineError (List (String × Value))
  answer : Option String
  trace : List CallEvent
  tempFileExists : Bool

/-- Embeds the chunks one call at a time, strictly in sequence: on a failure
the remaining chunks are not embedded (spec sections 4.2 and 5). -/
def embedChunks (svc : Services) (key : String) :
    List (String × Nat) → Except PipelineError (List Chunk) × List CallEvent
  | [] => (.ok [], [])
  | (t, i) :: rest =>
    match svc.embed key t with
    | .error _ => (.error .embeddingError, [.embedChunk t])
    | .ok v =>
      match embedChunks svc key rest with
      | (.error e, tr) => (.error e, .embedChunk t :: tr)
      | (.ok cs, tr) => (.ok (⟨t, i, v⟩ :: cs), .embedChunk t :: tr)

/-- The pipeline from the built index on: query-time embedding, retrieval
completion (top 4 chunks, temperature 0, app.py lines 49 and 69), then the
extraction chat completion (temperature 0, app.py line 110) and the
structured parse (app.py line 116).  The temporary file exists throughout. -/
def pipelineFromChunks (svc : Services) (key : String) (chunks : List Chunk) : Run :=
  match svc.embed key query with
  | .error _ => ⟨.error .embeddingError, none, [.embedQuery query], true⟩
  | .ok qvec =>
    match svc.completeText key (retrievalPrompt (contextOf (nearest chunks qvec 4))) 0 with
    | .error _ =>
        ⟨.error .generationError, none,
          [.embedQuery query,
           .textCompletion (retrievalPrompt (contextOf (nearest chunks qvec 4))) 0], true⟩
    | .ok ans =>
      if ans = "" then
        ⟨.error .generationError, none,
          [.embedQuery query,
           .textCompletion (retrievalPrompt (contextOf (nearest chunks qvec 4))) 0], true⟩
      else
        match svc.completeChat key (chatPrompt ans) 0 with
        | .error _ =>
            ⟨.error .generationError, some ans,
              [.embedQuery query,
               .textCompletion (retrievalPrompt (contextOf (nearest chunks qvec 4))) 0,
               .chatCompletion (chatPrompt ans) 0], true⟩
        | .ok raw =>
            ⟨parseStructured raw, some ans,
              [.embedQuery query,
               .textCompletion (retrievalPrompt (contextOf (nearest chunks qvec 4))) 0,
               .chatCompletion (chatPrompt ans) 0], true⟩

/-- The pipeline from the loaded pages on: chunking and the chunk-embedding
build (inside VectorstoreIndexCreator.from_loaders, app.py lines 53-56),
then the rest of the pipeline. -/
def pipelineFromPages (svc : Services) (key : String) (pages : List String) : Run :=
  match embedChunks svc key (chunkPages pages) with
  | (.error e, tr) => ⟨.error e, none, tr, true⟩
  | (.ok chunks, tr) =>
    ⟨(pipelineFromChunks svc key chunks).result,
     (pipelineFromChunks svc key chunks).answer,
     tr ++ (pipelineFromChunks svc key chunks).trace,
     (pipelineFromChunks svc key chunks).tempFileExists⟩

/-- One pipeline run over the temporary file's bytes: the document load
(PyPDFLoader, app.py line 47; performed lazily inside from_loaders, before
any embedding call) followed by the rest of the pipeline.  A load failure
aborts before any network-facing call.  The temporary file exists on every
exit of the pipeline itself; removal is the boundary's last step. -/
def runPipeline (svc : Services) (key : String) (bytes : List Nat) : Run :=
  match svc.loadPDF bytes with
  | .error _ => ⟨.error .loadError, none, [], true⟩
  | .ok pages => pipelineFromPages svc key pages

/-- One full invocation as app.py performs it: the temporary file is created,
the pipeline runs, and os.remove (app.py line 123) executes only on the
straight-line success path — an exception anywhere aborts the script before
the removal, so on a failed run the temporary file persists. -/
def runApp (svc : Services) (key : String) (bytes : List Nat) : Run :=
  match runPipeline svc key bytes with
  | ⟨.ok r, a, tr, _⟩ => ⟨.ok r, a, tr, false⟩
  | ⟨.error e, a, tr, fx⟩ => ⟨.error e, a, tr, fx⟩

/-- The boundary adapter of app.py lines 35-39: the key text input and the
file uploader; the pipeline block runs exactly when a file has been uploaded
(line 39).  No check of the credential is performed. -/
def boundary (svc : Services) (key : String) (file : Option (List Nat)) : Option Run :=
  match file with
  | none => none
  | some bytes => some (runApp svc key bytes)

/-- The per-event invariant of every recorded external call: query-time
embeddings embed the fixed question, and both completion calls carry
temperature 0 and prompts of the pipeline's fixed shapes. -/
def eventOK : CallEvent → Prop
  | .embedChunk _ => True
  | .embedQuery s => s = query
  | .textCompletion p t => t = 0 ∧ ∃ ctx, p = retrievalPrompt ctx
  | .chatCompletion p t => t = 0 ∧ ∃ a, p = chatPrompt a

/-- The number of chat-completion round-trips in a trace. -/
def chatCalls (tr : List CallEvent) : Nat :=
  tr.countP (fun e => match e with | .chatCompletion _ _ => true | _ => false)

/-- The number of retrieval (text) completion round-trips in a trace. -/
def textCalls (tr : List CallEvent) : Nat :=
  tr.countP (fun e => match e with | .textCompletion _ _ => true | _ => false)

/-- The temperatures of all completion calls in a trace, in order. -/
def completionTemps (tr : List CallEvent) : List Nat :=
  tr.filterMap (fun e =>
    match e with
    | .textCompletion _ t => some t
    | .chatCompletion _ t => some t
    | _ => none)

/-- A stub page text, from the end-to-end scenario of spec section 8. -/
def okPage : String :=
  "Invoice #123, issued 01-05-2024, from Acme Corp, 1 Main St, Springfield (IL), USA, for Consulting Services, Grand Total 450.00"

/-- The structured chat output of the deterministic success stub: five
determined fields, the service field undetermined. -/
def rawOK : List (String × RawField) :=
  [("number", .determined (.str "123")),
   ("date", .determined (.str "01-05-2024")),
   ("company", .determined (.str "Acme Corp")),
   ("address", .determined (.str "1 Main St, Springfield (IL), USA")),
   ("service", .undetermined),
   ("total", .determined (.num 450))]

/-- The extraction result the success stub yields. -/
def resOK : List (String × Value) :=
  [("number", .str "123"),
   ("date", .str "01-05-2024"),
   ("company", .str "Acme Corp"),
   ("address", .str "1 Main St, Springfield (IL), USA"),
   ("service", .null),
   ("total", .num 450)]

/-- A deterministic stub under which every stage succeeds. -/
def svcOK : Services where
  loadPDF _ := .ok [okPage]
  embed _ t := .ok [Int.ofNat t.length]
  completeText _ _ _ := .ok "stub retrieval answer"
  completeChat _ _ _ := .ok (some rawOK)

/-- A stub whose loader rejects the bytes: an invalid (non-PDF) upload. -/
def svcBadPDF : Services where
  loadPDF _ := .error ()
  embed _ t := .ok [Int.ofNat t.length]
  completeText _ _ _ := .ok "stub retrieval answer"
  completeChat _ _ _ := .ok (some rawOK)

/-- A stub whose chat completion returns text that does not parse. -/
def svcBadParse : Services where
  loadPDF _ := .ok [okPage]
  embed _ t := .ok [Int.ofNat t.length]
  completeText _ _ _ := .ok "stub retrieval answer"
  completeChat _ _ _ := .ok none

/-- The chunk-embedding stage only records chunk-embedding events. -/
theorem embedChunks_trace_shape (svc : Services) (key : String) :
    ∀ l, ∃ ts : List String, (embedChunks svc key l).2 = ts.map CallEvent.embedChunk := by
  intro l
  induction l with
  | nil => exact ⟨[], rfl⟩
  | cons hd tl ih =>
    obtain ⟨t, i⟩ := hd
    obtain ⟨ts, hts⟩ := ih
    unfold embedChunks
    cases hE : svc.embed key t with
    | error u => exact ⟨[t], rfl⟩
    | ok v =>
      cases hR : embedChunks svc key tl with
      | mk res tr =>
        rw [hR] at hts
        simp only at hts
        cases res with
        | error e => exact ⟨t :: ts, by simp [hts]⟩
        | ok cs => exact ⟨t :: ts, by simp [hts]⟩

/-- A failing chunk-embedding stage fails with the embedding error. -/
theorem embedChunks_error_embedding (svc : Services) (key : String) :
    ∀ l e, (embedChunks svc key l).1 = .error e → e = PipelineError.embeddingError := by
  intro l
  induction l with
  | nil => intro e h; simp [embedChunks] at h
  | cons hd tl ih =>
    obtain ⟨t, i⟩ := hd
    intro e h
    unfold embedChunks at h
    cases hE : svc.embed key t with
    | error u =>
      rw [hE] at h
      simp only at h
      exact (Except.error.injEq _ _ ▸ h).symm
    | ok v =>
      rw [hE] at h
      cases hR : embedChunks svc key tl with
      | mk res tr =>
        rw [hR] at h
        cases res with
        | error e2 =>
          simp only at h
          have he2 : e2 = e := by
            have := congrArg (fun x => x) h
            simpa using h
          exact he2 ▸ ih e2 (by rw [hR])
        | ok cs => simp at h

/-- Every event recorded after the index is built satisfies the per-event
invariant. -/
theorem fromChunks_eventOK (svc : Services) (key : String) (chunks : List Chunk) :
    ∀ e ∈ (pipelineFromChunks svc key chunks).trace, eventOK e := by
  intro e he
  unfold pipelineFromChunks at he
  split at he
  · simp at he
    simp [he, eventOK]
  · split at he
    · simp at he
      rcases he with rfl | rfl
      · simp [eventOK]
      · exact ⟨rfl, _, rfl⟩
    · split at he
      · simp at he
        rcases he with rfl | rfl
        · simp [eventOK]
        · exact ⟨rfl, _, rfl⟩
      · split at he
        · simp at he
          rcases he with rfl | rfl | rfl
          · simp [eventOK]
          · exact ⟨rfl, _, rfl⟩
          · exact ⟨rfl, _, rfl⟩
        · simp at he
          rcases he with rfl | rfl | rfl
          · simp [eventOK]
          · exact ⟨rfl, _, rfl⟩
          · exact ⟨rfl, _, rfl⟩

/-- Every event recorded from the loaded pages on satisfies the per-event
invariant. -/
theorem fromPages_eventOK (svc : Services) (key : String) (pages : List String) :
    ∀ e ∈ (pipelineFromPages svc key pages).trace, eventOK e := by
  intro e he
  obtain ⟨ts, hts⟩ := embedChunks_trace_shape svc key (chunkPages pages)
  unfold pipelineFromPages at he
  split at he
  · rename_i e2 tr heq
    rw [heq] at hts
    simp only at hts he
    rw [hts] at he
    obtain ⟨t, _, rfl⟩ := List.mem_map.mp he
    trivial
  · rename_i chunks tr heq
    rw [heq] at hts
    simp only at hts he
    rcases List.mem_append.mp he with h | h
    · rw [hts] at h
      obtain ⟨t, _, rfl⟩ := List.mem_map.mp h
      trivial
    · exact fromChunks_eventOK svc key chunks e h

/-- Every event recorded by a pipeline run satisfies the per-event invariant. -/
theorem runPipeline_eventOK (svc : Services) (key : String) (bytes : List Nat) :
    ∀ e ∈ (runPipeline svc key bytes).trace, eventOK e := by
  unfold runPipeline
  cases hL : svc.loadPDF bytes with
  | error u => intro e he; simp at he
  | ok pages => exact fromPages_eventOK svc key pages

/-- The boundary step does not change the pipeline result. -/
theorem runApp_result (svc : Services) (key : String) (bytes : List Nat) :
    (runApp svc key bytes).result = (runPipeline svc key bytes).result := by
  unfold runApp
  cases h : runPipeline svc key bytes with
  | mk res a tr fx => cases res <;> rfl

/-- The boundary step does not change the call trace. -/
theorem runApp_trace (svc : Services) (key : String) (bytes : List Nat) :
    (runApp svc key bytes).trace = (runPipeline svc key bytes).trace := by
  unfold runApp
  cases h : runPipeline svc key bytes with
  | mk res a tr fx => cases res <;> rfl

/-- The boundary step does not change the recorded retrieval answer. -/
theorem runApp_answer (svc : Services) (key : String) (bytes : List Nat) :
    (runApp svc key bytes).answer = (runPipeline svc key bytes).answer := by
  unfold runApp
  cases h : runPipeline svc key bytes with
  | mk res a tr fx => cases res <;> rfl

/-- Full characterization of the pipeline from the built index on: either the
query-time embedding fails, or the retrieval completion fails, or both
completion round-trips happen (in order, once each) and the result is the
parse of the chat output. -/
theorem fromChunks_cases (svc : Services) (key : String) (chunks : List Chunk) :
    ((pipelineFromChunks svc key chunks).result = Except.error PipelineError.embeddingError
      ∧ (pipelineFromChunks svc key chunks).trace = [CallEvent.embedQuery query])
    ∨ (∃ ctx, (pipelineFromChunks svc key chunks).result = Except.error PipelineError.generationError
      ∧ (pipelineFromChunks svc key chunks).trace
          = [CallEvent.embedQuery query, CallEvent.textCompletion (retrievalPrompt ctx) 0])
    ∨ (∃ ctx a,
        (pipelineFromChunks svc key chunks).trace
          = [CallEvent.embedQuery query, CallEvent.textCompletion (retrievalPrompt ctx) 0,
             CallEvent.chatCompletion (chatPrompt a) 0]
        ∧ (pipelineFromChunks svc key chunks).answer = some a
        ∧ ((pipelineFromChunks svc key chunks).result = Except.error PipelineError.generationError
           ∨ ∃ raw, (pipelineFromChunks svc key chunks).result = parseStructured raw)) := by
  unfold pipelineFromChunks
  split
  · left; exact ⟨rfl, rfl⟩
  · split
    · right; left; exact ⟨_, rfl, rfl⟩
    · split
      · right; left; exact ⟨_, rfl, rfl⟩
      · split
        · right; right; exact ⟨_, _, rfl, rfl, Or.inl rfl⟩
        · rename_i raw heq
          right; right; exact ⟨_, _, rfl, rfl, Or.inr ⟨raw, rfl⟩⟩

/-- A successful run of the post-index pipeline is a successful structured
parse of some chat output. -/
theorem fromChunks_ok_parse (svc : Services) (key : String) (chunks : List Chunk)
    (r : List (String × Value))
    (h : (pipelineFromChunks svc key chunks).result = Except.ok r) :
    ∃ raw, parseStructured raw = Except.ok r := by
  rcases fromChunks_cases svc key chunks with ⟨hres, _⟩ | ⟨ctx, hres, _⟩ | ⟨ctx, a, _, _, hres⟩
  · rw [h] at hres; simp at hres
  · rw [h] at hres; simp at hres
  · rcases hres with hres | ⟨raw, hres⟩
    · rw [h] at hres; simp at hres
    · exact ⟨raw, by rw [← hres, h]⟩

/-- A run of the post-index pipeline that completes (success or parse error)
has issued exactly the three later-stage calls, in order. -/
theorem fromChunks_completed (svc : Services) (key : String) (chunks : List Chunk)
    (h : (∃ r, (pipelineFromChunks svc key chunks).result = Except.ok r)
       ∨ (pipelineFromChunks svc key chunks).result = Except.error PipelineError.parseError) :
    ∃ ctx a, (pipelineFromChunks svc key chunks).trace
      = [CallEvent.embedQuery query, CallEvent.textCompletion (retrievalPrompt ctx) 0,
         CallEvent.chatCompletion (chatPrompt a) 0] := by
  rcases fromChunks_cases svc key chunks with ⟨hres, _⟩ | ⟨ctx, hres, _⟩ | ⟨ctx, a, htr, _, _⟩
  · rcases h with ⟨r, hr⟩ | hr <;> rw [hres] at hr <;> simp at hr
  · rcases h with ⟨r, hr⟩ | hr <;> rw [hres] at hr <;> simp at hr
  · exact ⟨ctx, a, htr⟩

/-- A successful run from the loaded pages is a successful structured parse. -/
theorem fromPages_ok_parse (svc : Services) (key : String) (pages : List String)
    (r : List (String × Value))
    (h : (pipelineFromPages svc key pages).result = Except.ok r) :
    ∃ raw, parseStructured raw = Except.ok r := by
  unfold pipelineFromPages at h
  split at h
  · simp at h
  · rename_i chunks tr heq
    exact fromChunks_ok_parse svc key chunks r h

/-- A run from the loaded pages that completes (success or parse error) has a
trace of chunk embeddings followed by the three later-stage calls, in order. -/
theorem fromPages_completed (svc : Services) (key : String) (pages : List String)
    (h : (∃ r, (pipelineFromPages svc key pages).result = Except.ok r)
       ∨ (pipelineFromPages svc key pages).result = Except.error PipelineError.parseError) :
    ∃ ts : List String, ∃ ctx a,
      (pipelineFromPages svc key pages).trace
        = ts.map CallEvent.embedChunk
          ++ [CallEvent.embedQuery query, CallEvent.textCompletion (retrievalPrompt ctx) 0,
              CallEvent.chatCompletion (chatPrompt a) 0] := by
  obtain ⟨ts, hts⟩ := embedChunks_trace_shape svc key (chunkPages pages)
  unfold pipelineFromPages at h ⊢
  split at h
  · rename_i e2 tr heq
    have he2 : e2 = PipelineError.embeddingError :=
      embedChunks_error_embedding svc key (chunkPages pages) e2 (by rw [heq])
    rcases h with ⟨r, hr⟩ | hr
    · simp at hr
    · rw [he2] at hr; simp at hr
  · rename_i chunks tr heq
    rw [heq] at hts
    have hts2 : tr = ts.map CallEvent.embedChunk := hts
    have h2 : (∃ r, (pipelineFromChunks svc key chunks).result = Except.ok r)
        ∨ (pipelineFromChunks svc key chunks).result = Except.error PipelineError.parseError := h
    obtain ⟨ctx, a, htr⟩ := fromChunks_completed svc key chunks h2
    refine ⟨ts, ctx, a, ?_⟩
    show tr ++ (pipelineFromChunks svc key chunks).trace = _
    rw [hts2, htr]

/-- A successful pipeline run is a successful structured parse. -/
theorem runPipeline_ok_parse (svc : Services) (key : String) (bytes : List Nat)
    (r : List (String × Value))
    (h : (runPipeline svc key bytes).result = Except.ok r) :
    ∃ raw, parseStructured raw = Except.ok r := by
  unfold runPipeline at h
  split at h
  · simp at h
  · rename_i pages heq
    exact fromPages_ok_parse svc key pages r h

/-- A pipeline run that completes (success or parse error) has the full
strictly sequential trace: chunk embeddings, then the query embedding, then
one retrieval completion, then one chat completion. -/
theorem runPipeline_completed (svc : Services) (key : String) (bytes : List Nat)
    (h : (∃ r, (runPipeline svc key bytes).result = Except.ok r)
       ∨ (runPipeline svc key bytes).result = Except.error PipelineError.parseError) :
    ∃ ts : List String, ∃ ctx a,
      (runPipeline svc key bytes).trace
        = ts.map CallEvent.embedChunk
          ++ [CallEvent.embedQuery query, CallEvent.textCompletion (retrievalPrompt ctx) 0,
              CallEvent.chatCompletion (chatPrompt a) 0] := by
  unfold runPipeline at h ⊢
  split at h
  · rcases h with ⟨r, hr⟩ | hr <;> simp at hr
  · rename_i pages heq
    exact fromPages_completed svc key pages h

/-- The keys of a successfully parsed structured output are exactly the six
schema names, in schema order. -/
theorem parse_ok_keys (raw : Option (List (String × RawField))) (r : List (String × Value))
    (h : parseStructured raw = Except.ok r) : r.map Prod.fst = fieldNames := by
  cases raw with
  | none => exact Except.noConfusion h
  | some kvs =>
    simp only [parseStructured] at h
    split at h
    · rename_i hk
      have hr : kvs.map (fun p => (p.1, renderField p.2)) = r := by
        injection h
      subst hr
      have hc : Prod.fst ∘ (fun p : String × RawField => (p.1, renderField p.2)) = Prod.fst := rfl
      rw [List.map_map, hc]
      exact hk
    · exact Except.noConfusion h

/-- Chunk-embedding events contribute no retrieval completions to the count. -/
theorem textCalls_embedChunks (ts : List String) :
    textCalls (ts.map CallEvent.embedChunk) = 0 := by
  induction ts with
  | nil => rfl
  | cons h t ih => simp [textCalls, List.countP_cons]

/-- Chunk-embedding events contribute no chat completions to the count. -/
theorem chatCalls_embedChunks (ts : List String) :
    chatCalls (ts.map CallEvent.embedChunk) = 0 := by
  induction ts with
  | nil => rfl
  | cons h t ih => simp [chatCalls, List.countP_cons]

/-- A completed trace holds exactly one retrieval completion. -/
theorem textCalls_completed (ts : List String) (ctx a : String) :
    textCalls (ts.map CallEvent.embedChunk
      ++ [CallEvent.embedQuery query, CallEvent.textCompletion (retrievalPrompt ctx) 0,
          CallEvent.chatCompletion (chatPrompt a) 0]) = 1 := by
  rw [textCalls, List.countP_append]
  have h1 := textCalls_embedChunks ts
  rw [textCalls] at h1
  rw [h1]
  rfl

/-- A completed trace holds exactly one chat completion. -/
theorem chatCalls_completed (ts : List String) (ctx a : String) :
    chatCalls (ts.map CallEvent.embedChunk
      ++ [CallEvent.embedQuery query, CallEvent.textCompletion (retrievalPrompt ctx) 0,
          CallEvent.chatCompletion (chatPrompt a) 0]) = 1 := by
  rw [chatCalls, List.countP_append]
  have h1 := chatCalls_embedChunks ts
  rw [chatCalls] at h1
  rw [h1]
  rfl

/-- Field lookup commutes with the instructed rendering of field values. -/
theorem lookup_map_render (kvs : List (String × RawField)) (n : String) :
    (kvs.map (fun p => (p.1, renderField p.2))).lookup n
      = (kvs.lookup n).map renderField := by
  induction kvs with
  | nil => rfl
  | cons hd tl ih =>
    obtain ⟨a, b⟩ := hd
    cases h : n == a <;> simp [List.lookup, h, ih]

/-- Claim C1: for every invocation whose structured parse completes, the
resulting mapping contains exactly the six keys number, date, company,
address, service, total — none omitted, no extra keys — each mapped to a
string, a number, or null. -/
theorem c1_schema_completeness (svc : Services) (key : String) (bytes : List Nat)
    (r : List (String × Value))
    (h : (runApp svc key bytes).result = Except.ok r) :
    r.map Prod.fst = fieldNames
    ∧ ∀ p ∈ r, (∃ s, p.2 = Value.str s) ∨ (∃ n, p.2 = Value.num n) ∨ p.2 = Value.null := by
  rw [runApp_result] at h
  obtain ⟨raw, hp⟩ := runPipeline_ok_parse svc key bytes r h
  refine ⟨parse_ok_keys raw r hp, ?_⟩
  intro p _
  rcases p with ⟨n, v⟩
  cases v with
  | str s => exact Or.inl ⟨s, rfl⟩
  | num m => exact Or.inr (Or.inl ⟨m, rfl⟩)
  | null => exact Or.inr (Or.inr rfl)

/-- Witness for C1 at the deterministic success stub. -/
theorem c1_schema_completeness_witness :
    resOK.map Prod.fst = fieldNames
    ∧ ∀ p ∈ resOK, (∃ s, p.2 = Value.str s) ∨ (∃ n, p.2 = Value.num n) ∨ p.2 = Value.null :=
  c1_schema_completeness svcOK "sk-test" [1] resOK (by rfl)

/-- Claim C2: the claim states that after any invocation, success or failure,
the temporary file no longer exists.  The code removes the file only on the
straight-line success path (os.remove, app.py line 123, runs after the parse
and the display); on an invocation that fails — here one whose upload is not
a loadable PDF — the invocation finishes with the temporary file still
present, while a successful invocation does remove it. -/
theorem c2_temp_file_persists_on_failure :
    (runApp svcBadPDF "sk-test" [0]).result = Except.error PipelineError.loadError
    ∧ (runApp svcBadPDF "sk-test" [0]).tempFileExists = true
    ∧ (runApp svcOK "sk-test" [0]).tempFileExists = false :=
  ⟨rfl, rfl, rfl⟩

/-- Claim C3: if the chat-completion text does not parse into the expected
six-key structure, the invocation fails with ParseError surfaced as the
boundary result; exactly one retrieval round-trip and exactly one
chat-completion round-trip were issued — no retry, no fallback, no second
completion call — and no mapping is emitted. -/
theorem c3_parse_error_no_retry (svc : Services) (key : String) (bytes : List Nat)
    (h : (runApp svc key bytes).result = Except.error PipelineError.parseError) :
    chatCalls (runApp svc key bytes).trace = 1
    ∧ textCalls (runApp svc key bytes).trace = 1
    ∧ ∀ r, (runApp svc key bytes).result ≠ Except.ok r := by
  rw [runApp_result] at h
  rw [runApp_trace]
  obtain ⟨ts, ctx, a, htr⟩ := runPipeline_completed svc key bytes (Or.inr h)
  refine ⟨?_, ?_, ?_⟩
  · rw [htr]; exact chatCalls_completed ts ctx a
  · rw [htr]; exact textCalls_completed ts ctx a
  · intro r hr
    rw [runApp_result] at hr
    rw [h] at hr
    exact Except.noConfusion hr

/-- Witness for C3 at the stub whose chat output does not parse. -/
theorem c3_parse_error_no_retry_witness :
    chatCalls (runApp svcBadParse "sk-test" [0]).trace = 1
    ∧ textCalls (runApp svcBadParse "sk-test" [0]).trace = 1
    ∧ ∀ r, (runApp svcBadParse "sk-test" [0]).result ≠ Except.ok r :=
  c3_parse_error_no_retry svcBadParse "sk-test" [0] (by rfl)

/-- Claim C4 counterexample: the claim states the pipeline is invoked only
with a non-empty credential string; but the boundary of app.py guards only on
the uploaded file (line 39) and never checks the key, so the pipeline is
invoked even with the empty credential. -/
theorem c4_empty_key_invoked :
    (boundary svcOK "" (some [0])).isSome = true ∧ ("" : String).length = 0 :=
  ⟨rfl, rfl⟩

/-- Claim C4 (amended): the boundary adapter invokes the pipeline exactly when
a file has been uploaded, regardless of the credential; the credential is
never inspected at all — not even for non-emptiness — and is passed through
opaquely to the service clients. -/
theorem c4_boundary_guard_amended (svc : Services) (key : String) (file : Option (List Nat)) :
    (boundary svc key file).isSome = file.isSome := by
  cases file <;> rfl

/-- Claim C5: for an input file that is not a readable, well-formed PDF, the
pipeline fails with LoadError and its call trace is empty — no embedding and
no completion call was issued. -/
theorem c5_load_error_before_network (svc : Services) (key : String) (bytes : List Nat)
    (h : svc.loadPDF bytes = Except.error ()) :
    (runApp svc key bytes).result = Except.error PipelineError.loadError
    ∧ (runApp svc key bytes).trace = [] := by
  rw [runApp_result, runApp_trace]
  unfold runPipeline
  rw [h]
  exact ⟨rfl, rfl⟩

/-- Witness for C5 at the stub whose loader rejects the bytes. -/
theorem c5_load_error_before_network_witness :
    (runApp svcBadPDF "sk-test" [7]).result = Except.error PipelineError.loadError
    ∧ (runApp svcBadPDF "sk-test" [7]).trace = [] :=
  c5_load_error_before_network svcBadPDF "sk-test" [7] (by rfl)

/-- Claim C6: for a fixed document and the fixed question, two runs of the
pipeline against the same deterministic stub services return the same
free-text retrieval answer and the same extraction result, and every
completion call of the run is configured with temperature 0. -/
theorem c6_determinism (svc : Services) (key : String) (bytes : List Nat) (r1 r2 : Run)
    (h1 : r1 = runApp svc key bytes) (h2 : r2 = runApp svc key bytes) :
    r1.answer = r2.answer ∧ r1.result = r2.result
    ∧ (completionTemps r1.trace).all (fun t => t == 0) = true := by
  subst h1
  subst h2
  refine ⟨rfl, rfl, ?_⟩
  rw [List.all_eq_true]
  intro t ht
  simp only [completionTemps] at ht
  obtain ⟨e, he, hfe⟩ := List.mem_filterMap.mp ht
  rw [runApp_trace] at he
  have hOK := runPipeline_eventOK svc key bytes e he
  cases e with
  | embedChunk s => simp at hfe
  | embedQuery s => simp at hfe
  | textCompletion p tt =>
    simp at hfe
    obtain ⟨ht0, _⟩ := hOK
    subst hfe
    simp [ht0]
  | chatCompletion p tt =>
    simp at hfe
    obtain ⟨ht0, _⟩ := hOK
    subst hfe
    simp [ht0]

/-- Witness for C6 at the deterministic success stub. -/
theorem c6_determinism_witness :
    (runApp svcOK "sk-test" [1]).answer = (runApp svcOK "sk-test" [1]).answer
    ∧ (runApp svcOK "sk-test" [1]).result = (runApp svcOK "sk-test" [1]).result
    ∧ (completionTemps (runApp svcOK "sk-test" [1]).trace).all (fun t => t == 0) = true :=
  c6_determinism svcOK "sk-test" [1] _ _ rfl rfl

/-- Claim C7: a successful invocation issues its external calls strictly in
sequence — the chunk embeddings, then the query-time embedding, then the one
retrieval completion, then the one chat completion — exactly one round-trip
of each completion kind and nothing out of order. -/
theorem c7_sequential_calls (svc : Services) (key : String) (bytes : List Nat)
    (r : List (String × Value))
    (h : (runApp svc key bytes).result = Except.ok r) :
    ∃ ts : List String, ∃ ctx a,
      (runApp svc key bytes).trace
        = ts.map CallEvent.embedChunk
          ++ [CallEvent.embedQuery query, CallEvent.textCompletion (retrievalPrompt ctx) 0,
              CallEvent.chatCompletion (chatPrompt a) 0]
      ∧ textCalls (runApp svc key bytes).trace = 1
      ∧ chatCalls (runApp svc key bytes).trace = 1 := by
  rw [runApp_result] at h
  rw [runApp_trace]
  obtain ⟨ts, ctx, a, htr⟩ := runPipeline_completed svc key bytes (Or.inl ⟨r, h⟩)
  exact ⟨ts, ctx, a, htr,
    by rw [htr]; exact textCalls_completed ts ctx a,
    by rw [htr]; exact chatCalls_completed ts ctx a⟩

/-- Witness for C7 at the deterministic success stub. -/
theorem c7_sequential_calls_witness :
    ∃ ts : List String, ∃ ctx a,
      (runApp svcOK "sk-test" [1]).trace
        = ts.map CallEvent.embedChunk
          ++ [CallEvent.embedQuery query, CallEvent.textCompletion (retrievalPrompt ctx) 0,
              CallEvent.chatCompletion (chatPrompt a) 0]
      ∧ textCalls (runApp svcOK "sk-test" [1]).trace = 1
      ∧ chatCalls (runApp svcOK "sk-test" [1]).trace = 1 :=
  c7_sequential_calls svcOK "sk-test" [1] resOK (by rfl)

/-- Claim C8: for every query vector q and bound k, nearest(q, k) returns at
most k chunks, sorted by non-decreasing distance with ties broken by the
chunks' original order, and every returned chunk comes from the index. -/
theorem c8_nearest_sorted (chunks : List Chunk) (q : List Int) (k : Nat) :
    (nearest chunks q k).length ≤ k
    ∧ List.Pairwise (chunkLE q) (nearest chunks q k)
    ∧ ∀ c ∈ nearest chunks q k, c ∈ chunks := by
  refine ⟨?_, ?_, ?_⟩
  · unfold nearest
    rw [List.length_take]
    exact min_le_left _ _
  · unfold nearest
    exact List.Pairwise.sublist (List.take_sublist _ _)
      (List.sorted_insertionSort (chunkLE q) chunks)
  · intro c hc
    unfold nearest at hc
    have hmem := List.take_subset _ _ hc
    simpa using hmem

/-- Claim C9: in a successful extraction, a field the model could not
determine is mapped to the explicit null value — the key is present (the
lookup succeeds) and its value is null, not an empty string. -/
theorem c9_null_fallback (kvs : List (String × RawField)) (r : List (String × Value))
    (n : String)
    (hparse : parseStructured (some kvs) = Except.ok r)
    (hn : kvs.lookup n = some RawField.undetermined) :
    r.lookup n = some Value.null := by
  simp only [parseStructured] at hparse
  split at hparse
  · have hr : kvs.map (fun p => (p.1, renderField p.2)) = r := by injection hparse
    subst hr
    rw [lookup_map_render, hn]
    rfl
  · exact Except.noConfusion hparse

/-- Witness for C9: the service field of the success stub is undetermined and
comes out as null. -/
theorem c9_null_fallback_witness : resOK.lookup "service" = some Value.null :=
  c9_null_fallback rawOK resOK "service" (by rfl) (by rfl)

/-- Claim C10: the retrieval-stage question is the fixed constant string on
every invocation — every query-time embedding embeds exactly it, every
retrieval prompt is the fixed prompt shape around it — and the whole run
depends on the uploaded bytes only through the loaded document. -/
theorem c10_fixed_question (svc : Services) (key : String) (bytes : List Nat) :
    (∀ s, CallEvent.embedQuery s ∈ (runApp svc key bytes).trace → s = query)
    ∧ (∀ p t, CallEvent.textCompletion p t ∈ (runApp svc key bytes).trace →
        ∃ ctx, p = retrievalPrompt ctx)
    ∧ ∀ bytes2, svc.loadPDF bytes = svc.loadPDF bytes2 →
        runApp svc key bytes = runApp svc key bytes2 := by
  refine ⟨?_, ?_, ?_⟩
  · intro s hs
    rw [runApp_trace] at hs
    exact runPipeline_eventOK svc key bytes _ hs
  · intro p t hp
    rw [runApp_trace] at hp
    exact (runPipeline_eventOK svc key bytes _ hp).2
  · intro bytes2 hld
    unfold runApp runPipeline
    rw [hld]

/-- Witness for C10 at the deterministic success stub: the recorded query
embedding is the constant question, and two uploads with the same loaded
document produce identical runs. -/
theorem c10_fixed_question_witness :
    query = query ∧ runApp svcOK "sk-test" [1] = runApp svcOK "sk-test" [2] :=
  ⟨(c10_fixed_question svcOK "sk-test" [1]).1 query (by decide),
   (c10_fixed_question svcOK "sk-test" [1]).2.2 [2] (by rfl)⟩

end InvoiceExtractor
